import Mathlib

/-!
Verification development for the unifi-proxy repository (a Node.js Layer-4
TLS SNI passthrough proxy).  The definitions below are shallow embeddings of
the repository's source files:

* `src/utils/sni-parser.js`  — `hasEnoughDataForSNI`, `parseSNI`
* `src/utils/ip-filter.js`   — `ipToInt`, `parseCIDR` (numeric core),
                               `matchesCIDR`, `IPFilter.isAllowed`
* `src/config.js`            — `UNIFI_DOMAINS`, `getUpstreamForSNI`
* `src/health-check.js`      — `StatsTracker` and its record methods
* `src/server.js`            — `checkRateLimit`, the SNI-decision step of
                               `handleConnection`/`onClientData`

Node `Buffer` values are modelled as a length together with a byte function;
out-of-range single-byte indexing yields `none` (JS `undefined`), and
out-of-range `readUInt16BE` also yields `none` (Node throws `RangeError`,
which `parseSNI` catches and turns into `null`).
-/

/-- Model of a Node `Buffer`: a size and a byte function.  `byte i` is only
meaningful for `i < size`; access goes through `Buf.get`, which reduces the
stored value mod 256 (Buffer cells are octets). -/
structure Buf where
  size : Nat
  byte : Nat → Nat

/-- `buffer[i]`: `some` octet when in range, `none` (JS `undefined`) otherwise. -/
def Buf.get (b : Buf) (i : Nat) : Option Nat :=
  if i < b.size then some (b.byte i % 256) else none

/-- `buffer.readUInt16BE(off)`: big-endian 16-bit read; `none` models the
`RangeError` Node throws when `off + 1` is not in range. -/
def readU16 (b : Buf) (off : Nat) : Option Nat :=
  if off + 1 < b.size then some (256 * (b.byte off % 256) + b.byte (off + 1) % 256)
  else none

/-- The octets `buffer[s], …, buffer[e-1]`. -/
def Buf.sliceBytes (b : Buf) (s e : Nat) : List Nat :=
  (List.range (e - s)).map (fun i => b.byte (s + i) % 256)

/-- `buffer.toString('utf8', s, e)` on the extracted octets, one character per
byte.  This coincides with Node's UTF-8 decoding on ASCII data, which is the
only data the route table and the concrete buffers of this development carry. -/
def bytesToString (bs : List Nat) : String :=
  String.mk (bs.map (fun n => Char.ofNat n))

/-- Build a buffer from an explicit byte list. -/
def Buf.ofList (l : List Nat) : Buf :=
  { size := l.length, byte := fun i => l.getD i 0 }

/-- `hasEnoughDataForSNI(buffer)` from `src/utils/sni-parser.js`: false when
fewer than 5 bytes are buffered, when the first byte is not `0x16`, or when the
outer TLS record (header length field + 5) has not fully arrived. -/
def hasEnoughDataForSNI (b : Buf) : Bool :=
  if b.size < 5 then false
  else if b.get 0 ≠ some 0x16 then false
  else
    match readU16 b 3 with
    | none => false
    | some recordLength => decide (recordLength + 5 ≤ b.size)

/-- The extension-scanning `while` loop of `parseSNI`.  The source loop runs
`while (offset + 3 < extensionsEnd && offset + 3 < buffer.length)` and advances
`offset` by at least 4 per iteration, so it iterates at most `b.size` times;
the `fuel` argument (called with `b.size + 1`) therefore never runs out on the
reachable iterations and only makes the recursion structural. -/
def sniExtLoop (b : Buf) (extensionsEnd : Nat) : Nat → Nat → Option String
  | 0, _ => none
  | fuel + 1, offset =>
    if offset + 3 < extensionsEnd ∧ offset + 3 < b.size then
      match readU16 b offset, readU16 b (offset + 2) with
      | some extensionType, some extensionLength =>
        if extensionType = 0 then
          -- SNI extension (type 0x0000)
          if offset + 4 + 4 ≥ b.size then none
          else
            match readU16 b (offset + 4) with
            | none => none
            | some _serverNameListLength =>
              if offset + 6 + 2 ≥ b.size then none
              else
                match b.get (offset + 6), readU16 b (offset + 7) with
                | some serverNameType, some serverNameLength =>
                  if serverNameType = 0 ∧ offset + 9 + serverNameLength ≤ b.size then
                    some (bytesToString (b.sliceBytes (offset + 9) (offset + 9 + serverNameLength)))
                  else none
                | _, _ => none
        else sniExtLoop b extensionsEnd fuel (offset + 4 + extensionLength)
      | _, _ => none
    else none

/-- `parseSNI(buffer)` from `src/utils/sni-parser.js`.  Returns the
`server_name` of the first SNI extension, or `none` on any of the source's
early-return paths (mirrored condition by condition). -/
def parseSNI (b : Buf) : Option String :=
  if b.size < 5 then none
  else if b.get 0 ≠ some 0x16 then none
  else if b.get 5 ≠ some 0x01 then none
  else
    match b.get 43 with
    | none => none
    | some sessionIdLength =>
      let offset := 43 + 1 + sessionIdLength
      if offset + 1 ≥ b.size then none
      else
        match readU16 b offset with
        | none => none
        | some cipherSuitesLength =>
          let offset := offset + 2 + cipherSuitesLength
          if offset ≥ b.size then none
          else
            match b.get offset with
            | none => none
            | some compressionMethodsLength =>
              let offset := offset + 1 + compressionMethodsLength
              if offset + 1 ≥ b.size then none
              else
                match readU16 b offset with
                | none => none
                | some extensionsLength =>
                  sniExtLoop b (offset + 2 + extensionsLength) (b.size + 1) (offset + 2)

/-! ## Route table (`src/config.js`) -/

/-- Upstream target `{host, port}` from `src/config.js`. -/
structure Upstream where
  host : String
  port : Nat
deriving DecidableEq

/-- The own-key step of a JS property read on the object literal: first
matching own key wins (keys of `UNIFI_DOMAINS` are distinct, so order is
immaterial).  A miss here does not end the read — JS continues into the
prototype chain, modelled in `getUpstreamForSNI` below. -/
def lookupDomain : List (String × Upstream) → String → Option Upstream
  | [], _ => none
  | (k, v) :: rest, s => if s = k then some v else lookupDomain rest s

/-- `UNIFI_DOMAINS` from `src/config.js`: the six SNI hostnames and their
upstream targets. -/
def UNIFI_DOMAINS : List (String × Upstream) :=
  [("fw-download.ubnt.com", ⟨"fw-download.ubnt.com", 443⟩),
   ("fw-update.ubnt.com", ⟨"fw-update.ubnt.com", 443⟩),
   ("fw-update.ui.com", ⟨"fw-update.ui.com", 443⟩),
   ("apt.artifacts.ui.com", ⟨"apt.artifacts.ui.com", 443⟩),
   ("apt-beta.artifacts.ui.com", ⟨"apt-beta.artifacts.ui.com", 443⟩),
   ("apt-release-candidate.artifacts.ui.com", ⟨"apt-release-candidate.artifacts.ui.com", 443⟩)]

/-- The property names `UNIFI_DOMAINS` inherits from `Object.prototype` (the
object literal's prototype): reading any of them yields the inherited member —
a function, or for `__proto__` the prototype object itself — all of which are
truthy. -/
def objectProtoKeys : List String :=
  ["constructor", "hasOwnProperty", "isPrototypeOf", "propertyIsEnumerable",
   "toLocaleString", "toString", "valueOf", "__defineGetter__", "__defineSetter__",
   "__lookupGetter__", "__lookupSetter__", "__proto__"]

/-- A JS value that `UNIFI_DOMAINS[sni] || null` can produce: a route-table
record (an own key's value), a truthy member inherited from
`Object.prototype`, or `null`. -/
inductive RouteValue where
  | upstreamObj (u : Upstream)
  | protoFn (name : String)
  | nullish
deriving DecidableEq

/-- JS truthiness of such a value: objects and functions are truthy, `null` is
falsy. -/
def RouteValue.isTruthy : RouteValue → Bool
  | .nullish => false
  | _ => true

/-- `getUpstreamForSNI(sni)` from `src/config.js`: `if (!sni) return null;
return UNIFI_DOMAINS[sni] || null;`.  For strings, `!sni` is true exactly for
the empty string.  The property read `UNIFI_DOMAINS[sni]` first consults the
literal's own keys and then falls back to the `Object.prototype` chain: for
the twelve inherited member names it yields that member, which is truthy and
survives `|| null`; only a fully absent property gives `undefined`, which
`|| null` converts to `null`. -/
def getUpstreamForSNI (sni : String) : RouteValue :=
  if sni = "" then .nullish
  else
    match lookupDomain UNIFI_DOMAINS sni with
    | some u => .upstreamObj u
    | none => if sni ∈ objectProtoKeys then .protoFn sni else .nullish

/-- `getAllowedDomains()` from `src/config.js` (`Object.keys(UNIFI_DOMAINS)`). -/
def getAllowedDomains : List String := UNIFI_DOMAINS.map Prod.fst

/-! ## Stats tracker (`src/health-check.js`)

Counters are JS numbers, modelled as `Int` so that the clamping in
`recordSuccess`/`recordFailure` (`Math.max(0, active - 1)`) is meaningful.
The `domains` and `ipConnections` objects are association lists. -/

structure ProxyStats where
  total : Int
  active : Int
  successful : Int
  failed : Int
  domains : List (String × Int)
  ipConnections : List (String × Int)
deriving DecidableEq

/-- `this.m[k] || 0`: present value, else 0 (a stored 0 is falsy and also
yields 0). -/
def countOf : List (String × Int) → String → Int
  | [], _ => 0
  | (k', v) :: rest, k => if k' = k then v else countOf rest k

/-- `this.m[k] = v`: overwrite the key's entry or append it. -/
def setCount : List (String × Int) → String → Int → List (String × Int)
  | [], k, v => [(k, v)]
  | (k', v') :: rest, k, v => if k' = k then (k, v) :: rest else (k', v') :: setCount rest k v

/-- `this.m[k] = (this.m[k] || 0) + 1`. -/
def bumpCount (m : List (String × Int)) (k : String) : List (String × Int) :=
  setCount m k (countOf m k + 1)

/-- The `StatsTracker` constructor state. -/
def initialStats : ProxyStats :=
  { total := 0, active := 0, successful := 0, failed := 0, domains := [], ipConnections := [] }

/-- `StatsTracker.recordConnection(ip, sni)`: `total++`, `active++`, and bump
the `domains`/`ipConnections` maps when `sni`/`ip` are truthy (non-empty). -/
def recordConnection (s : ProxyStats) (ip sni : String) : ProxyStats :=
  { s with
    total := s.total + 1
    active := s.active + 1
    domains := if sni ≠ "" then bumpCount s.domains sni else s.domains
    ipConnections := if ip ≠ "" then bumpCount s.ipConnections ip else s.ipConnections }

/-- `StatsTracker.recordSuccess()`: `successful++`,
`active = Math.max(0, active - 1)`. -/
def recordSuccess (s : ProxyStats) : ProxyStats :=
  { s with successful := s.successful + 1, active := max 0 (s.active - 1) }

/-- `StatsTracker.recordFailure()`: `failed++`,
`active = Math.max(0, active - 1)`. -/
def recordFailure (s : ProxyStats) : ProxyStats :=
  { s with failed := s.failed + 1, active := max 0 (s.active - 1) }

/-! ## Connection handler (`src/server.js`) -/

/-- Failure reasons distinguishable on the `onClientData` decision paths of
`src/server.js` (the source logs different messages but takes the same
record-failure-and-destroy action). -/
inductive FailReason where
  | noSni
  | sniNotAllowed
deriving DecidableEq

/-- Outcome of one `onClientData` invocation on the accumulated buffer.
`waitForMore` is the early `return` when `hasEnoughDataForSNI` is false;
`closeFailure` is `stats.recordFailure(); clientSocket.destroy()`;
`dialUpstream` is `stats.recordConnection(...)` followed by `connectToUpstream` —
the only path on which an upstream dial ever happens. -/
inductive HandlerAction where
  | waitForMore
  | closeFailure (r : FailReason)
  | dialUpstream (sni : String) (up : RouteValue)
deriving DecidableEq

/-- The decision logic of `onClientData(data)` in `src/server.js`, applied to
the accumulated preread buffer (the function body after
`dataBuffer = Buffer.concat(...)`).  `if (!sniHostname)` is true both for
`null` and for the empty string. -/
def onClientDataStep (b : Buf) : HandlerAction :=
  if hasEnoughDataForSNI b = false then .waitForMore
  else
    match parseSNI b with
    | none => .closeFailure .noSni
    | some sniHostname =>
      if sniHostname = "" then .closeFailure .noSni
      else
        let upstream := getUpstreamForSNI sniHostname
        if upstream.isTruthy = false then .closeFailure .sniNotAllowed
        else .dialUpstream sniHostname upstream

/-- The stats mutation performed by the `onClientData` path that produced the
given action: failure paths call `stats.recordFailure()`, the admit path calls
`stats.recordConnection(clientIP, sniHostname)`, the wait path touches
nothing. -/
def prereadStatsEffect (clientIP : String) (a : HandlerAction) (s : ProxyStats) : ProxyStats :=
  match a with
  | .waitForMore => s
  | .closeFailure _ => recordFailure s
  | .dialUpstream sniHostname _ => recordConnection s clientIP sniHostname

/-- The stats calls made over the lifetime of one accepted connection in
`handleConnection` (`src/server.js`), by terminal path:

* `ipDenied`, `rateLimited`: rejected before preread — `recordFailure()` only;
* `prereadTimedOut`: the preread timer fired — `recordFailure()`;
* `noSniParsed`, `sniNotAllowed`: preread decision failed — `recordFailure()`;
* `upstreamFailed`: admitted (`recordConnection`) then the dial errored or
  timed out — `recordFailure()`;
* `spliced`: admitted, `secureConnect` fired — `recordSuccess()`;
* `splicedThenDropped`: admitted and spliced (`recordSuccess()` on
  `secureConnect`), then the upstream socket's `timeout`/`error` listener fired
  during the splice — an additional `recordFailure()`. -/
inductive ConnOutcome where
  | ipDenied
  | rateLimited
  | prereadTimedOut
  | noSniParsed
  | sniNotAllowed
  | upstreamFailed (ip sni : String)
  | spliced (ip sni : String)
  | splicedThenDropped (ip sni : String)
deriving DecidableEq

/-- Apply one connection's stats calls. -/
def connStats : ConnOutcome → ProxyStats → ProxyStats
  | .ipDenied, s => recordFailure s
  | .rateLimited, s => recordFailure s
  | .prereadTimedOut, s => recordFailure s
  | .noSniParsed, s => recordFailure s
  | .sniNotAllowed, s => recordFailure s
  | .upstreamFailed ip sni, s => recordFailure (recordConnection s ip sni)
  | .spliced ip sni, s => recordSuccess (recordConnection s ip sni)
  | .splicedThenDropped ip sni, s => recordFailure (recordSuccess (recordConnection s ip sni))

/-- The stats state after a sequence of connections has completed. -/
def runConnections (os : List ConnOutcome) : ProxyStats :=
  os.foldl (fun s o => connStats o s) initialStats

/-! ## IP filter (`src/utils/ip-filter.js`)

JS numbers appearing in `ipToInt` are either NaN (comparisons false, bitwise
operand value 0) or integers; 32-bit results are represented by their unsigned
bit pattern in `[0, 2^32)`, which is faithful for `&`, `<<`, `>>> 0` and
`===` because every value compared is produced by the same pipeline. -/

/-- A JS number as produced by `Number(part)` on a dot-free address field. -/
inductive JsNum where
  | nan
  | int (n : Int)
deriving DecidableEq

/-- JS `split('.')` on the character list (non-empty separator semantics:
`"" → [""]`, separators at the ends produce empty fields). -/
def splitOnDot : List Char → List (List Char)
  | [] => [[]]
  | c :: rest =>
    let r := splitOnDot rest
    if c = '.' then [] :: r
    else
      match r with
      | h :: t => (c :: h) :: t
      | [] => [[c]]

/-- The decimal value of a digit list. -/
def digitsVal (l : List Char) : Nat :=
  l.foldl (fun a c => a * 10 + (c.toNat - 48)) 0

/-- JS `Number(s)` on a dot-free field: surrounding whitespace is ignored,
the empty/blank string is 0, an optionally signed run of decimal digits is its
value, and anything else is NaN.  (Hex/binary/exponent literals and
`Infinity`, which no input of this development uses, also land on NaN.) -/
def jsNumberOfChars (cs : List Char) : JsNum :=
  let t := ((cs.dropWhile Char.isWhitespace).reverse.dropWhile Char.isWhitespace).reverse
  match t with
  | [] => .int 0
  | '+' :: rest => if rest ≠ [] ∧ rest.all Char.isDigit then .int (digitsVal rest) else .nan
  | '-' :: rest => if rest ≠ [] ∧ rest.all Char.isDigit then .int (-(digitsVal rest : Int)) else .nan
  | _ => if t.all Char.isDigit then .int (digitsVal t) else .nan

/-- `p < 0 || p > 255` under JS comparison semantics (false for NaN). -/
def jsOutOfRange : JsNum → Bool
  | .nan => false
  | .int n => n < 0 || 255 < n

/-- `ToInt32` of a JS number, represented as its unsigned 32-bit pattern
(NaN converts to 0). -/
def jsToUint32 : JsNum → Nat
  | .nan => 0
  | .int n => (n % ((2 : Int) ^ 32)).toNat

/-- `(p0 << 24) | (p1 << 16) | (p2 << 8) | p3` on 32-bit patterns. -/
def jsCombineOctets (p0 p1 p2 p3 : JsNum) : Nat :=
  ((jsToUint32 p0 <<< 24) % 2 ^ 32) ||| ((jsToUint32 p1 <<< 16) % 2 ^ 32) |||
    ((jsToUint32 p2 <<< 8) % 2 ^ 32) ||| jsToUint32 p3

/-- `ipToInt(ip)` from `src/utils/ip-filter.js`: split on `'.'`, convert each
field with `Number`, throw (`none`) unless there are exactly 4 fields all
passing the range check, else combine.  NaN fields pass the range check (JS
comparisons with NaN are false) and contribute 0 bits, exactly as in the
source. -/
def ipToInt (ip : String) : Option Nat :=
  match (splitOnDot ip.data).map jsNumberOfChars with
  | [p0, p1, p2, p3] =>
    if jsOutOfRange p0 || jsOutOfRange p1 || jsOutOfRange p2 || jsOutOfRange p3 then none
    else some (jsCombineOctets p0 p1 p2 p3)
  | _ => none

/-- A parsed CIDR rule `{network, mask}`. -/
structure CIDRRule where
  network : Nat
  mask : Nat
deriving DecidableEq

/-- The mask computation of `parseCIDR`:
`prefix === 0 ? 0 : (0xFFFFFFFF << (32 - prefix)) >>> 0`. -/
def maskFromN (n : Nat) : Nat :=
  if n = 0 then 0 else (0xFFFFFFFF <<< (32 - n)) % 2 ^ 32

/-- The numeric core of `parseCIDR` from `src/utils/ip-filter.js`, applied
after the slash split and prefix validation: given the address integer and the
prefix length, `return { network: network & mask, mask }`. -/
def parseCIDRCore (network n : Nat) : CIDRRule :=
  { network := network &&& maskFromN n, mask := maskFromN n }

/-- `matchesCIDR(ipInt, cidr)`: `(ipInt & cidr.mask) === cidr.network`. -/
def matchesCIDR (ipInt : Nat) (c : CIDRRule) : Bool :=
  (ipInt &&& c.mask) == c.network

/-- One entry of `IPFilter.rules`: `{type:'ip', ip, original}` or
`{type:'cidr', cidr, original}`. -/
inductive IPRule where
  | single (ip : Nat) (original : String)
  | cidr (rule : CIDRRule) (original : String)
deriving DecidableEq

/-- The allow-all test inside `isAllowed`:
`rule.type === 'cidr' && rule.cidr.network === 0 && rule.cidr.mask === 0`. -/
def isAllowAllRule : IPRule → Bool
  | .cidr c _ => c.network == 0 && c.mask == 0
  | .single _ _ => false

/-- The per-rule match of the `isAllowed` loop. -/
def ruleMatches (ipInt : Nat) : IPRule → Bool
  | .single a _ => ipInt == a
  | .cidr c _ => matchesCIDR ipInt c

/-- `IPFilter.isAllowed(ip)` from `src/utils/ip-filter.js`: empty rule list
allows everything; a `0.0.0.0/0` rule allows everything; otherwise parse the
peer address (an unparseable address is caught and denied) and scan the rules
for a match. -/
def isAllowed (rules : List IPRule) (ip : String) : Bool :=
  if rules.length = 0 then true
  else if rules.any isAllowAllRule then true
  else
    match ipToInt ip with
    | none => false
    | some ipInt => rules.any (ruleMatches ipInt)

/-! ## Rate limiter (`src/server.js`)

`rateLimitMap` is keyed by source IP and each key's entry is touched only by
checks for that key, so the model tracks the entry of one fixed address.
Timestamps are `Date.now()` values in milliseconds. -/

/-- One `rateLimitMap` entry `{count, resetTime}`. -/
structure RLEntry where
  count : Nat
  resetTime : Nat
deriving DecidableEq

/-- `checkRateLimit(ip)` from `src/server.js` for one address: given the
configured limit, the current time and the address's entry (`none` when
absent), return whether the connection is admitted together with the updated
entry.  `now > existing.resetTime` starts a fresh window `{count: 1,
resetTime: now + 60000}`. -/
def checkRateLimit (limit now : Nat) : Option RLEntry → Bool × Option RLEntry
  | none => (true, some { count := 1, resetTime := now + 60000 })
  | some existing =>
    if existing.resetTime < now then (true, some { count := 1, resetTime := now + 60000 })
    else if limit ≤ existing.count then (false, some existing)
    else (true, some { count := existing.count + 1, resetTime := existing.resetTime })

/-- Run a sequence of checks for one address at the given times, recording
each check's result together with the entry it left behind. -/
def runRateChecks (limit : Nat) (st : Option RLEntry) : List Nat → List (Bool × Option RLEntry)
  | [] => []
  | t :: ts =>
    let step := checkRateLimit limit t st
    step :: runRateChecks limit step.2 ts

/-- A check that was granted into the fixed window ending at `w`. -/
def grantedCheckInWindow (w : Nat) (p : Bool × Option RLEntry) : Bool :=
  p.1 && (match p.2 with
          | some e => e.resetTime == w
          | none => false)

/-- How many checks of a trace were granted into the window ending at `w`. -/
def grantedInWindow (w : Nat) (tr : List (Bool × Option RLEntry)) : Nat :=
  (tr.filter (grantedCheckInWindow w)).length

/-! ## Concrete inputs -/

/-- The first five bytes a plain-HTTP client sends: `GET /`. -/
def getBuf : Buf := Buf.ofList [0x47, 0x45, 0x54, 0x20, 0x2F]

/-- A 16385-byte buffer (beyond the 16 KiB the specification names as the
preread cap) whose record header announces a 65535-byte record, so the outer
record is still incomplete. -/
def bigBuf : Buf :=
  { size := 16385
    byte := fun i => if i = 0 then 0x16 else if i = 3 then 255 else if i = 4 then 255 else 0 }

/-- A 58-byte ClientHello whose first SNI extension carries a `host_name`
entry of length 0.  Only the framing bytes `parseSNI` actually reads are
pinned; every byte the parser skips (record header, handshake length,
versions, random) is taken from `f`.  Layout: empty session id, empty cipher
suites, empty compression methods, extensions length 9, one extension of type
0x0000 and length 5 holding server-name-list length 3, name type 0, name
length 0. -/
def zeroNameHello (f : Nat → Nat) : Buf :=
  { size := 58
    byte := fun i =>
      if i = 0 then 0x16
      else if i = 5 then 0x01
      else if i = 48 then 9
      else if i = 52 then 5
      else if i = 54 then 3
      else if 43 ≤ i ∧ i ≤ 57 then 0
      else f i }

/-- The canonical zero-length-server-name buffer with zeroed skipped bytes. -/
def zeroNameHelloBuf : Buf := zeroNameHello (fun _ => 0)

/-- The zero-length-server-name buffer with a correct outer record length
(53 = 58 − 5), so `hasEnoughDataForSNI` is also satisfied. -/
def hello53 : Buf := zeroNameHello (fun i => if i = 4 then 53 else 0)

/-- A complete, well-formed 69-byte ClientHello carrying SNI `example.com`:
record length 64, handshake type 1, empty session id / cipher suites /
compression methods, extensions length 20, one SNI extension of length 16 with
server-name-list length 14, name type 0, name length 11, name
`example.com`. -/
def exampleComBuf : Buf := Buf.ofList
  ([0x16, 3, 1, 0, 64, 0x01, 0, 0, 65, 3, 3] ++
   List.replicate 32 0 ++
   [0, 0, 0, 0, 0, 20, 0, 0, 0, 16, 0, 14, 0, 0, 11] ++
   [101, 120, 97, 109, 112, 108, 101, 46, 99, 111, 109])

/-! ## Claim C4 — route-table totality of denial -/

/-- Claim C4 (amended): `getUpstreamForSNI` returns the configured upstream
target (the hostname itself on port 443) for each of the six configured
hostnames, and `null` for every other string except the `Object.prototype`
property names: for those the JS property read yields the truthy inherited
member, which is not `null` and therefore escapes route denial. -/
theorem routeTableTotality (s : String) :
    (s ∈ getAllowedDomains → getUpstreamForSNI s = .upstreamObj ⟨s, 443⟩) ∧
    (s ∈ objectProtoKeys → getUpstreamForSNI s = .protoFn s) ∧
    (s ∉ getAllowedDomains → s ∉ objectProtoKeys → getUpstreamForSNI s = .nullish) := by
  refine ⟨?_, ?_, ?_⟩
  · intro h
    simp only [getAllowedDomains, UNIFI_DOMAINS, List.map_cons, List.map_nil,
      List.mem_cons, List.not_mem_nil, or_false] at h
    rcases h with rfl | rfl | rfl | rfl | rfl | rfl <;> decide
  · intro h
    simp only [objectProtoKeys, List.mem_cons, List.not_mem_nil, or_false] at h
    rcases h with rfl | rfl | rfl | rfl | rfl | rfl | rfl | rfl | rfl | rfl | rfl | rfl <;>
      decide
  · intro h hp
    simp only [getAllowedDomains, UNIFI_DOMAINS, List.map_cons, List.map_nil,
      List.mem_cons, List.not_mem_nil, or_false, not_or] at h
    obtain ⟨h1, h2, h3, h4, h5, h6⟩ := h
    by_cases hs : s = ""
    · simp [getUpstreamForSNI, hs]
    · simp [getUpstreamForSNI, hs, lookupDomain, UNIFI_DOMAINS, h1, h2, h3, h4, h5, h6, hp]

/-- Witness for C4: a configured hostname is routed, a foreign hostname is
denied, and an inherited property name leaks through as a truthy value. -/
theorem routeTableTotality_witness :
    ("fw-download.ubnt.com" ∈ getAllowedDomains ∧
      getUpstreamForSNI "fw-download.ubnt.com" =
        .upstreamObj ⟨"fw-download.ubnt.com", 443⟩) ∧
    ("example.org" ∉ getAllowedDomains ∧ "example.org" ∉ objectProtoKeys ∧
      getUpstreamForSNI "example.org" = .nullish) ∧
    ("toString" ∈ objectProtoKeys ∧ getUpstreamForSNI "toString" = .protoFn "toString") :=
  ⟨⟨by decide, (routeTableTotality "fw-download.ubnt.com").1 (by decide)⟩,
   ⟨by decide, by decide, (routeTableTotality "example.org").2.2 (by decide) (by decide)⟩,
   ⟨by decide, (routeTableTotality "toString").2.1 (by decide)⟩⟩

/-- Counterexample to C4 as stated: `"toString"` is not one of the six
configured hostnames, yet the lookup returns the truthy inherited
`Object.prototype.toString`, not `null`. -/
theorem routeTableTotality_counterexample :
    "toString" ∉ getAllowedDomains ∧
    getUpstreamForSNI "toString" ≠ .nullish ∧
    getUpstreamForSNI "toString" = .protoFn "toString" := by decide

/-! ## Claim C10 — empty-string SNI is treated as absent -/

/-- Claim C10: if the SNI parser returns the empty string for a complete
record, the handler closes the client without dialing upstream (the
`!sniHostname` truthiness check fires), and `getUpstreamForSNI` maps the empty
string to `null` (`.nullish`) as well. -/
theorem emptySniStillClosed (b : Buf) (h1 : hasEnoughDataForSNI b = true)
    (h2 : parseSNI b = some "") :
    onClientDataStep b = .closeFailure .noSni ∧ getUpstreamForSNI "" = .nullish := by
  refine ⟨?_, rfl⟩
  simp [onClientDataStep, h1, h2]

/-- Witness for C10: a complete ClientHello with a zero-length server name
reaches the empty-SNI close. -/
theorem emptySniStillClosed_witness :
    (hasEnoughDataForSNI hello53 = true ∧ parseSNI hello53 = some "") ∧
    (onClientDataStep hello53 = .closeFailure .noSni ∧ getUpstreamForSNI "" = .nullish) :=
  ⟨⟨by decide, by decide⟩, emptySniStillClosed hello53 (by decide) (by decide)⟩

/-! ## Claim C3 — preread buffer bound -/

/-- Claim C3 (amended): the preread buffer is not capped.  Whenever the record
probe is unsatisfied the handler returns to wait for more data, regardless of
how large the buffer already is; no `HelloTooLarge` (or any other) failure
path exists in `onClientData` for an oversized buffer. -/
theorem prereadUncapped (b : Buf) (h : hasEnoughDataForSNI b = false) :
    onClientDataStep b = .waitForMore := by
  simp [onClientDataStep, h]

/-- Witness for C3: a concrete buffer beyond 16 KiB still waits. -/
theorem prereadUncapped_witness :
    hasEnoughDataForSNI bigBuf = false ∧ onClientDataStep bigBuf = .waitForMore :=
  ⟨by decide, prereadUncapped bigBuf (by decide)⟩

/-- Counterexample to C3 as stated: at a buffered size beyond the claimed
16 KiB cap with the probe still unsatisfied, the handler keeps buffering
instead of failing. -/
theorem prereadUncapped_counterexample :
    16384 ≤ bigBuf.size ∧ hasEnoughDataForSNI bigBuf = false ∧
    onClientDataStep bigBuf = .waitForMore := by decide

/-! ## Claim C5 — non-TLS first byte -/

/-- Claim C5 (amended): when the first buffered byte is not `0x16`,
`hasEnoughDataForSNI` is false, so `onClientData` returns to wait for more
data; the connection is never closed with an immediate not-TLS action (only
the preread timer eventually ends it). -/
theorem nonTlsWaitsForTimeout (b : Buf) (v : Nat) (h : b.get 0 = some v)
    (hv : v ≠ 0x16) : onClientDataStep b = .waitForMore := by
  have hE : hasEnoughDataForSNI b = false := by
    unfold hasEnoughDataForSNI
    by_cases h5 : b.size < 5
    · simp [h5]
    · have hne : b.get 0 ≠ some 0x16 := by rw [h]; simp [hv]
      simp [h5, hne]
  simp [onClientDataStep, hE]

/-- Witness for C5: the bytes `GET /` wait instead of closing. -/
theorem nonTlsWaitsForTimeout_witness :
    (getBuf.get 0 = some 0x47 ∧ (0x47 : Nat) ≠ 0x16) ∧
    onClientDataStep getBuf = .waitForMore :=
  ⟨⟨by decide, by decide⟩, nonTlsWaitsForTimeout getBuf 0x47 (by decide) (by decide)⟩

/-- Counterexample to C5 as stated: for `GET /` (first byte `0x47 ≠ 0x16`) the
handler does not close the client; it keeps waiting for more data. -/
theorem nonTlsWaitsForTimeout_counterexample :
    getBuf.get 0 = some 0x47 ∧ hasEnoughDataForSNI getBuf = false ∧
    onClientDataStep getBuf = .waitForMore := by decide

/-! ## Claim C2 — unknown-SNI accounting -/

/-- Claim C2 (amended): for a well-formed ClientHello carrying SNI
`example.com`, the connection is closed before any upstream dial
(`dialUpstream` is the only action that dials), and the stats afterwards show
`total = 0`, `failed = 1` and no `domains` entry: `recordConnection` runs only
after `getUpstreamForSNI` succeeds. -/
theorem unknownSniNotCounted :
    parseSNI exampleComBuf = some "example.com" ∧
    onClientDataStep exampleComBuf = .closeFailure .sniNotAllowed ∧
    (prereadStatsEffect "203.0.113.5" (onClientDataStep exampleComBuf) initialStats).total = 0 ∧
    (prereadStatsEffect "203.0.113.5" (onClientDataStep exampleComBuf) initialStats).failed = 1 ∧
    (prereadStatsEffect "203.0.113.5" (onClientDataStep exampleComBuf) initialStats).domains
      = [] := by
  decide

/-- Counterexample to C2 as stated: after the `example.com` connection,
`total` is not 1 and `domains[example.com]` is not 1. -/
theorem unknownSniNotCounted_counterexample :
    (prereadStatsEffect "203.0.113.5" (onClientDataStep exampleComBuf) initialStats).total ≠ 1 ∧
    countOf
      (prereadStatsEffect "203.0.113.5" (onClientDataStep exampleComBuf) initialStats).domains
      "example.com" ≠ 1 := by
  decide

/-! ## Claim C7 — zero-length server_name -/

/-- Claim C7 (amended): for every buffer shaped as a ClientHello whose first
SNI extension holds a `host_name` entry of length 0 (framing bytes pinned,
all skipped bytes arbitrary), `parseSNI` returns the present empty string,
not absent. -/
theorem zeroLengthNameYieldsEmpty (f : Nat → Nat) :
    parseSNI (zeroNameHello f) = some "" := by
  have h : sniExtLoop (zeroNameHello f) 58 59 49 = some "" := rfl
  simp only [parseSNI, zeroNameHello, Buf.get, readU16]
  norm_num
  exact h

/-- Counterexample to C7 as stated: the canonical zero-length-name buffer does
not parse to `none`. -/
theorem zeroLengthNameYieldsEmpty_counterexample :
    parseSNI zeroNameHelloBuf ≠ none ∧ parseSNI zeroNameHelloBuf = some "" := by decide

/-! ## Claim C6 — unparseable peer address -/

/-- Claim C6 (amended): for every non-empty rule set with no universal
`0.0.0.0/0` rule, an address that `ipToInt` cannot parse is denied.  (With an
empty rule set, or any set containing `0.0.0.0/0`, `isAllowed` answers true
before the address is ever parsed — see the counterexample.) -/
theorem unparseableDenied (rules : List IPRule) (addr : String)
    (h1 : rules ≠ []) (h2 : rules.any isAllowAllRule = false)
    (h3 : ipToInt addr = none) :
    isAllowed rules addr = false := by
  have hlen : ¬ rules.length = 0 := by
    simpa [List.length_eq_zero] using h1
  simp [isAllowed, hlen, h2, h3]

/-- Witness for C6: a single-host rule set denies the IPv6 loopback text. -/
theorem unparseableDenied_witness :
    (([IPRule.single 3232235777 "192.168.1.1"] : List IPRule) ≠ [] ∧
     ([IPRule.single 3232235777 "192.168.1.1"] : List IPRule).any isAllowAllRule = false ∧
     ipToInt "::1" = none) ∧
    isAllowed [IPRule.single 3232235777 "192.168.1.1"] "::1" = false :=
  ⟨⟨by decide, by decide, by decide⟩,
   unparseableDenied [IPRule.single 3232235777 "192.168.1.1"] "::1"
     (by decide) (by decide) (by decide)⟩

/-- Counterexample to C6 as stated: with the empty rule set, the unparseable
address `::1` is allowed, not denied. -/
theorem unparseableDenied_counterexample :
    ipToInt "::1" = none ∧ isAllowed [] "::1" = true := by decide

/-! ## Claim C9 — CIDR canonicalization invariance -/

/-- Claim C9: for all octets `A.B.C.D` and every N in `[0, 32]`, the parsed
rule of `A.B.C.D/N` equals the parsed rule of `(A.B.C.D & mask_N)/N`
(`parseCIDR` already stores `network & mask`), hence `isAllowed` under either
singleton rule set is the same acceptance function. -/
theorem cidrCanonicalInvariance (a b c d n : Nat) (_ha : a ≤ 255) (_hb : b ≤ 255)
    (_hc : c ≤ 255) (_hd : d ≤ 255) (_hn : n ≤ 32) :
    parseCIDRCore (jsCombineOctets (.int a) (.int b) (.int c) (.int d) &&& maskFromN n) n =
      parseCIDRCore (jsCombineOctets (.int a) (.int b) (.int c) (.int d)) n ∧
    isAllowed
        [IPRule.cidr
          (parseCIDRCore (jsCombineOctets (.int a) (.int b) (.int c) (.int d) &&& maskFromN n) n)
          "canonicalized"] =
      isAllowed
        [IPRule.cidr (parseCIDRCore (jsCombineOctets (.int a) (.int b) (.int c) (.int d)) n)
          "original"] := by
  have key : parseCIDRCore (jsCombineOctets (.int a) (.int b) (.int c) (.int d) &&& maskFromN n) n
      = parseCIDRCore (jsCombineOctets (.int a) (.int b) (.int c) (.int d)) n := by
    unfold parseCIDRCore
    rw [Nat.and_assoc, Nat.and_self]
  refine ⟨key, ?_⟩
  rw [key]
  funext ip
  simp [isAllowed, isAllowAllRule, ruleMatches]

/-- Witness for C9 at `10.0.0.7/8`. -/
theorem cidrCanonicalInvariance_witness :
    ((10 : Nat) ≤ 255 ∧ (0 : Nat) ≤ 255 ∧ (0 : Nat) ≤ 255 ∧ (7 : Nat) ≤ 255 ∧
      (8 : Nat) ≤ 32) ∧
    (parseCIDRCore (jsCombineOctets (.int 10) (.int 0) (.int 0) (.int 7) &&& maskFromN 8) 8 =
        parseCIDRCore (jsCombineOctets (.int 10) (.int 0) (.int 0) (.int 7)) 8 ∧
      isAllowed
          [IPRule.cidr
            (parseCIDRCore
              (jsCombineOctets (.int 10) (.int 0) (.int 0) (.int 7) &&& maskFromN 8) 8)
            "canonicalized"] =
        isAllowed
          [IPRule.cidr (parseCIDRCore (jsCombineOctets (.int 10) (.int 0) (.int 0) (.int 7)) 8)
            "original"]) :=
  ⟨⟨by decide, by decide, by decide, by decide, by decide⟩,
   cidrCanonicalInvariance 10 0 0 7 8 (by decide) (by decide) (by decide) (by decide) (by decide)⟩

/-! ## Claim C1 — stats conservation -/

/-- The invariant the `StatsTracker` counters actually maintain. -/
def statsConserved (s : ProxyStats) : Prop :=
  0 ≤ s.active ∧ s.total - s.successful - s.failed ≤ s.active

theorem statsConserved_recordConnection {s : ProxyStats} (h : statsConserved s)
    (ip sni : String) : statsConserved (recordConnection s ip sni) := by
  obtain ⟨h1, h2⟩ := h
  constructor <;> simp [recordConnection] <;> omega

theorem statsConserved_recordSuccess {s : ProxyStats} (h : statsConserved s) :
    statsConserved (recordSuccess s) := by
  obtain ⟨h1, h2⟩ := h
  have ha : (0 : Int) ≤ max 0 (s.active - 1) := le_max_left 0 _
  have hb : s.active - 1 ≤ max 0 (s.active - 1) := le_max_right 0 _
  constructor <;> simp [recordSuccess] <;> omega

theorem statsConserved_recordFailure {s : ProxyStats} (h : statsConserved s) :
    statsConserved (recordFailure s) := by
  obtain ⟨h1, h2⟩ := h
  have ha : (0 : Int) ≤ max 0 (s.active - 1) := le_max_left 0 _
  have hb : s.active - 1 ≤ max 0 (s.active - 1) := le_max_right 0 _
  constructor <;> simp [recordFailure] <;> omega

theorem statsConserved_connStats {s : ProxyStats} (h : statsConserved s)
    (o : ConnOutcome) : statsConserved (connStats o s) := by
  cases o <;>
    simp only [connStats] <;>
    first
      | exact statsConserved_recordFailure h
      | exact statsConserved_recordFailure (statsConserved_recordConnection h _ _)
      | exact statsConserved_recordSuccess (statsConserved_recordConnection h _ _)
      | exact statsConserved_recordFailure
          (statsConserved_recordSuccess (statsConserved_recordConnection h _ _))

theorem statsConserved_foldl (os : List ConnOutcome) :
    ∀ s : ProxyStats, statsConserved s →
      statsConserved (os.foldl (fun s o => connStats o s) s) := by
  induction os with
  | nil => intro s h; simpa using h
  | cons o os ih =>
    intro s h
    simpa [List.foldl_cons] using ih _ (statsConserved_connStats h o)

/-- Claim C1 (amended): over every sequence of completed connections, `active`
is never negative (it is clamped at 0) and
`total − successful − failed ≤ active`.  The claimed equality
`active = total − successful − failed` does not hold, because connections
rejected before admission increment `failed` without touching `total` or
`active` (and a spliced connection dropped later records both a success and a
failure). -/
theorem statsActiveClamped (os : List ConnOutcome) :
    0 ≤ (runConnections os).active ∧
    (runConnections os).total - (runConnections os).successful - (runConnections os).failed ≤
      (runConnections os).active :=
  statsConserved_foldl os initialStats (by constructor <;> decide)

/-- Counterexample to C1 as stated: a single IP-denied connection leaves
`active = 0` but `total − successful − failed = −1`. -/
theorem statsActiveClamped_counterexample :
    ¬ ((connStats .ipDenied initialStats).active =
        (connStats .ipDenied initialStats).total -
          (connStats .ipDenied initialStats).successful -
          (connStats .ipDenied initialStats).failed) ∧
    (connStats .ipDenied initialStats).active = 0 ∧
    (connStats .ipDenied initialStats).total = 0 ∧
    (connStats .ipDenied initialStats).successful = 0 ∧
    (connStats .ipDenied initialStats).failed = 1 := by decide

/-! ## Claim C8 — rate-limit bound -/

/-- How many more checks can still be granted into the window ending at `w`
from a given entry state. -/
def windowBound (limit w : Nat) : Option RLEntry → Nat
  | none => limit
  | some e => if e.resetTime = w then limit - e.count else if e.resetTime < w then limit else 0

theorem grantedInWindow_cons (w : Nat) (p : Bool × Option RLEntry)
    (tr : List (Bool × Option RLEntry)) :
    grantedInWindow w (p :: tr) =
      (if grantedCheckInWindow w p then 1 else 0) + grantedInWindow w tr := by
  by_cases h : grantedCheckInWindow w p = true
  · simp [grantedInWindow, List.filter_cons, h, Nat.add_comm]
  · simp [grantedInWindow, List.filter_cons, h]

theorem granted_bound_aux (limit : Nat) (hl : 1 ≤ limit) (ts : List Nat) :
    ∀ st : Option RLEntry,
      (∀ e, st = some e → e.count ≤ limit) →
      ∀ w, grantedInWindow w (runRateChecks limit st ts) ≤ windowBound limit w st := by
  induction ts with
  | nil =>
    intro st hst w
    simp [runRateChecks, grantedInWindow]
  | cons t ts ih =>
    intro st hst w
    match st with
    | none =>
      have htail := ih (some ⟨1, t + 60000⟩) (by rintro e ⟨rfl⟩; exact hl) w
      simp only [runRateChecks, checkRateLimit, grantedInWindow_cons]
      by_cases hw : t + 60000 = w
      · simp [windowBound, hw] at htail
        simp [grantedCheckInWindow, hw, windowBound]
        omega
      · simp only [windowBound, if_neg hw] at htail
        simp only [grantedCheckInWindow, windowBound, beq_iff_eq, Bool.true_and, if_neg hw]
        by_cases hlt : t + 60000 < w
        · simp only [if_pos hlt] at htail
          omega
        · simp only [if_neg hlt] at htail
          omega
    | some e =>
      by_cases hr : e.resetTime < t
      · have htail := ih (some ⟨1, t + 60000⟩) (by rintro e' ⟨rfl⟩; exact hl) w
        simp only [runRateChecks, checkRateLimit, if_pos hr, grantedInWindow_cons]
        have hew : e.resetTime < t + 60000 := by omega
        by_cases hw : t + 60000 = w
        · simp [windowBound, hw] at htail
          have h1 : e.resetTime ≠ w := by omega
          have h2 : e.resetTime < w := by omega
          simp [grantedCheckInWindow, hw, windowBound, h1, h2]
          omega
        · simp only [windowBound, if_neg hw] at htail
          simp only [grantedCheckInWindow, windowBound, beq_iff_eq, Bool.true_and, if_neg hw]
          by_cases hlt : t + 60000 < w
          · simp only [if_pos hlt] at htail
            have h2 : e.resetTime < w := by omega
            have h1 : e.resetTime ≠ w := by omega
            simp [h1, h2]
            omega
          · simp only [if_neg hlt] at htail
            split_ifs <;> omega
      · by_cases hc : limit ≤ e.count
        · have htail := ih (some e) hst w
          simp only [runRateChecks, checkRateLimit, if_neg hr, if_pos hc, grantedInWindow_cons]
          simp only [grantedCheckInWindow, Bool.false_and]
          simpa using htail
        · have hcount : e.count ≤ limit := hst e rfl
          have htail := ih (some ⟨e.count + 1, e.resetTime⟩)
            (by rintro e' ⟨rfl⟩; simpa using Nat.lt_of_not_le hc) w
          simp only [runRateChecks, checkRateLimit, if_neg hr, if_neg hc, grantedInWindow_cons]
          by_cases hw : e.resetTime = w
          · simp [windowBound, hw] at htail
            simp [grantedCheckInWindow, hw, windowBound]
            omega
          · simp only [windowBound, if_neg hw] at htail
            simp only [grantedCheckInWindow, windowBound, beq_iff_eq, Bool.true_and, if_neg hw]
            split_ifs at htail ⊢ <;> omega

/-- Claim C8: with a validated limit (`RATE_LIMIT_PER_IP ≥ 1`), for one source
address, at most `limit` checks of any trace are admitted into any one fixed
window (a window is identified by its end `w`, fixed when the entry is
created); and a check arriving after the entry's window expired resets the
entry to count 1 with the new window end `now + 60000`. -/
theorem rateLimitWindowBound (limit : Nat) (ts : List Nat) (w now : Nat) (e : RLEntry)
    (hl : 1 ≤ limit) (hnow : e.resetTime < now) :
    grantedInWindow w (runRateChecks limit none ts) ≤ limit ∧
    checkRateLimit limit now (some e) =
      (true, some { count := 1, resetTime := now + 60000 }) := by
  constructor
  · have h := granted_bound_aux limit hl ts none (by rintro e' ⟨⟩) w
    simpa [windowBound] using h
  · simp [checkRateLimit, hnow]

/-- Witness for C8: limit 2, four immediate checks, only two admitted into the
window ending at 60000; an expired entry resets on the next check. -/
theorem rateLimitWindowBound_witness :
    (1 ≤ 2 ∧ (RLEntry.mk 2 60000).resetTime < 70000) ∧
    (grantedInWindow 60000 (runRateChecks 2 none [0, 0, 0, 0]) ≤ 2 ∧
     checkRateLimit 2 70000 (some (RLEntry.mk 2 60000)) =
       (true, some { count := 1, resetTime := 70000 + 60000 })) :=
  ⟨⟨by decide, by decide⟩,
   rateLimitWindowBound 2 [0, 0, 0, 0] 60000 70000 ⟨2, 60000⟩ (by decide) (by decide)⟩
